import Mathlib

/-!
# Verification of the Terminus Tenebris solar-time core (`src/main.py`)

This file gives a shallow embedding of the computational core of the
repository: the `sun_times` sunrise-equation function, the `us_tz`
timezone/DST helper, and the epoch constants.  Python floats are modelled
as real numbers, Python `datetime` values as an absolute instant (seconds
relative to the reference epoch 2000-01-01T12:00:00Z) paired with a
timezone tag, and the fallible `math.acos` as an `Option`-valued function
that fails exactly when its argument leaves `[-1, 1]`.
-/

open Real (pi)

/-- Python's `%` on floats (sign follows the divisor): `a - b * ⌊a / b⌋`. -/
noncomputable def pymod (a b : ℝ) : ℝ := a - b * ⌊a / b⌋

/-- Python's `int()` applied to a float: truncation toward zero. -/
noncomputable def pyint (x : ℝ) : ℤ := if 0 ≤ x then ⌊x⌋ else ⌈x⌉

/-- `math.sin` composed with `math.radians` (the `sind` wrapper of the code). -/
noncomputable def sind (x : ℝ) : ℝ := Real.sin (x * (pi / 180))

/-- `math.cos` composed with `math.radians` (the `cosd` wrapper of the code). -/
noncomputable def cosd (x : ℝ) : ℝ := Real.cos (x * (pi / 180))

/-- `math.tan` composed with `math.radians` (the `tand` wrapper of the code). -/
noncomputable def tand (x : ℝ) : ℝ := Real.tan (x * (pi / 180))

/-- `math.degrees` of `math.asin` (the `asind` wrapper of the code). -/
noncomputable def asind (x : ℝ) : ℝ := Real.arcsin x * (180 / pi)

/-- `math.degrees` of `math.acos` (the `acosd` wrapper of the code),
restricted to the domain on which Python's `math.acos` does not raise. -/
noncomputable def acosd (x : ℝ) : ℝ := Real.arccos x * (180 / pi)

/-- An aware Python `datetime`: an absolute instant, measured in seconds
relative to `TIME_EPOCH` (2000-01-01T12:00:00 UTC), together with its
`tzinfo` tag.  Subtraction of aware datetimes compares instants;
`astimezone` replaces the tag and keeps the instant; adding a `timedelta`
shifts the instant and keeps the tag. -/
structure PyDateTime (TZ : Type) where
  instant : ℝ
  tz : TZ

/-! ## The `us_tz` timezone helper (lines 24-111 of `src/main.py`) -/

/-- A Gregorian calendar date, as read off a Python `datetime`'s
`year`/`month`/`day` fields. -/
structure PyDate where
  year : ℤ
  month : ℤ
  day : ℤ
deriving DecidableEq

/-- Days since 1970-01-01 of a civil date (the standard civil-from-days
inverse used by every Gregorian calendar implementation, here in its
floor-division form).  Models the day arithmetic inside Python's
`datetime.date`. -/
def daysFromCivil (dt : PyDate) : ℤ :=
  let y := if dt.month ≤ 2 then dt.year - 1 else dt.year
  let era := y / 400
  let yoe := y - era * 400
  let mp := (dt.month + 9) % 12
  let doy := (153 * mp + 2) / 5 + dt.day - 1
  let doe := yoe * 365 + yoe / 4 - yoe / 100 + doy
  era * 146097 + doe - 719468

/-- Python's `datetime.isoweekday()`: Monday = 1 … Sunday = 7
(1970-01-01 was a Thursday, isoweekday 4). -/
def isoweekday (dt : PyDate) : ℤ := (daysFromCivil dt + 3) % 7 + 1

/-- The date-based part of `us_tz._is_dst` together with the
`_dst_override` short-circuit (lines 93-110). -/
def is_dst (dst_override : Option Bool) (dt : PyDate) : Bool :=
  match dst_override with
  | some b => b
  | none =>
    if dt.month = 4 ∨ dt.month = 5 ∨ dt.month = 6 ∨ dt.month = 7 ∨
        dt.month = 8 ∨ dt.month = 9 ∨ dt.month = 10 then true
    else if dt.month = 1 ∨ dt.month = 2 ∨ dt.month = 12 then false
    else
      let wd := isoweekday dt % 7
      let last_sunday := dt.day - wd
      if dt.month = 3 then decide (last_sunday > 7)
      else decide (last_sunday > 0)

/-- The state of a constructed `us_tz` instance: UTC offset (in hours, a
`timedelta(hours=·)`), the two display names, and the stored DST
override. -/
structure TZState where
  utc_offset : ℚ
  std_name : String
  dst_name : String
  dst_override : Option Bool
deriving DecidableEq

/-- The `all_tz` table (lines 38-62): name ↦ (offset in hours, standard
name, DST name). -/
def all_tz : List (String × ℚ × String × String) :=
  [("eastern", (-5, "EST", "EDT")),
   ("central", (-6, "CST", "CDT")),
   ("mountain", (-7, "MST", "MDT")),
   ("pacific", (-8, "PST", "PDT")),
   ("alaska", (-9, "AKST", "AKDT")),
   ("hawaii", (-10, "HST", "HDT"))]

/-- `us_tz.__init__(name, dst_override)` (lines 66-84).  The outcome of
Python's `float(name)` call — `some x` on success, `none` when it raises
`ValueError`/`TypeError` — is passed in as `parsed`, since string-to-float
parsing lives in the Python runtime, not in this program. -/
def us_tz_init (name : String) (dst_override : Option Bool) (parsed : Option ℚ) : TZState :=
  match all_tz.lookup name with
  | some (off, sn, dn) =>
    { utc_offset := off, std_name := sn, dst_name := dn, dst_override := dst_override }
  | none =>
    match parsed with
    | some raw_offset =>
      { utc_offset := raw_offset, std_name := name, dst_name := name,
        dst_override := some false }
    | none =>
      { utc_offset := 0, std_name := "UTC", dst_name := "UTC",
        dst_override := some false }

/-- `us_tz.dst` (lines 88-89): `DST_OFFSET` (one hour) when `_is_dst`
holds, and `ZERO_OFFSET` otherwise, in hours. -/
def tz_dst (s : TZState) (dt : PyDate) : ℚ :=
  if is_dst s.dst_override dt then 1 else 0

/-- `us_tz.utcoffset` (lines 86-87): the stored offset plus the DST
correction. -/
def tz_utcoffset (s : TZState) (dt : PyDate) : ℚ :=
  s.utc_offset + tz_dst s dt

/-! ## The `sun_times` function (lines 113-157 of `src/main.py`)

The chain of intermediate quantities is written as one top-level
definition per assignment of the Python function, in source order. -/

/-- Line 120: `n = (dt - TIME_EPOCH + LEAP_SECONDS).total_seconds() / 86400.0`.
Since `instant` is already seconds relative to `TIME_EPOCH`, the
subtraction contributes `instant` and `LEAP_SECONDS` contributes `+5`. -/
noncomputable def n_of {TZ : Type} (dt : PyDateTime TZ) : ℝ :=
  (dt.instant + 5) / 86400.0

/-- Line 122: `M = (357.5291 + 985.600_280e-3*n) % 360`. -/
noncomputable def M_of {TZ : Type} (dt : PyDateTime TZ) : ℝ :=
  pymod (357.5291 + 985.600280e-3 * n_of dt) 360

/-- Line 124: `C = 1.9148*sind(M) + 20e-3*sind(2*M) + 300e-6*sind(3*M)`. -/
noncomputable def C_of {TZ : Type} (dt : PyDateTime TZ) : ℝ :=
  1.9148 * sind (M_of dt) + 20e-3 * sind (2 * M_of dt) + 300e-6 * sind (3 * M_of dt)

/-- Line 126: `lam = sum((M, C, 180.0, 102.9372)) % 360`. -/
noncomputable def lam_of {TZ : Type} (dt : PyDateTime TZ) : ℝ :=
  pymod (M_of dt + C_of dt + 180.0 + 102.9372) 360

/-- Line 128: `eq_of_time_day = - 5.3e-3*sind(M) + 6.9e-3*sind(2*lam)`. -/
noncomputable def eq_of_time_day {TZ : Type} (dt : PyDateTime TZ) : ℝ :=
  -(5.3e-3) * sind (M_of dt) + 6.9e-3 * sind (2 * lam_of dt)

/-- Line 130: `delta = asind(sind(lam)*sind(23.44))`. -/
noncomputable def delta_of {TZ : Type} (dt : PyDateTime TZ) : ℝ :=
  asind (sind (lam_of dt) * sind 23.44)

/-- The argument handed to `acosd` inside the `omega` lambda
(lines 134-136). -/
noncomputable def omega_arg {TZ : Type} (latitude_deg : ℝ) (dt : PyDateTime TZ)
    (theta : ℝ) : ℝ :=
  (sind theta - sind latitude_deg * sind (delta_of dt))
    / (cosd latitude_deg * cosd (delta_of dt))

/-- The `omega` lambda (lines 134-136), in hours either side of solar
noon.  `none` models the `ValueError` that Python's `math.acos` raises
when its argument leaves `[-1, 1]`. -/
noncomputable def omega {TZ : Type} (latitude_deg : ℝ) (dt : PyDateTime TZ)
    (theta : ℝ) : Option ℝ :=
  if |omega_arg latitude_deg dt theta| ≤ 1 then
    some (acosd (omega_arg latitude_deg dt theta) / 15.0)
  else none

/-- Line 137: `sunset_deg = -0.83`. -/
def sunset_deg : ℝ := -0.83

/-- Line 138: `civil_twilight_deg = -6.0`. -/
def civil_twilight_deg : ℝ := -6.0

/-- Line 141: `n_transit = int(n) - longitude_deg/360.0 - eq_of_time_day`. -/
noncomputable def n_transit {TZ : Type} (longitude_deg : ℝ) (dt : PyDateTime TZ) : ℝ :=
  (pyint (n_of dt) : ℝ) - longitude_deg / 360.0 - eq_of_time_day dt

/-- Lines 142-144: `dt_transit = (TIME_EPOCH - LEAP_SECONDS +
timedelta(days=n_transit)).astimezone(dt.tzinfo)`: the instant sits
`n_transit` days after five seconds before the epoch, tagged with the
input's timezone. -/
noncomputable def dt_transit {TZ : Type} (longitude_deg : ℝ) (dt : PyDateTime TZ) :
    PyDateTime TZ :=
  ⟨-5 + n_transit longitude_deg dt * 86400, dt.tz⟩

/-- Lines 113-157 assembled: `sun_times` either fails with the
`math.acos` domain error (`none`) — first probed at `sunset_deg`, then at
`civil_twilight_deg`, exactly as the two `omega` calls are evaluated —
or returns the dictionary, modelled as its key-value pairs in insertion
order.  `timedelta(hours=h)` shifts the instant by `h * 3600` seconds. -/
noncomputable def sun_times {TZ : Type} (latitude_deg longitude_deg : ℝ)
    (dt : PyDateTime TZ) : Option (List (String × PyDateTime TZ)) :=
  (omega latitude_deg dt sunset_deg).bind fun half_daylight_0 =>
  (omega latitude_deg dt civil_twilight_deg).map fun half_daylight_1 =>
    let T := dt_transit longitude_deg dt
    [("noon", T),
     ("sunrise", ⟨T.instant - half_daylight_0 * 3600, T.tz⟩),
     ("sunset", ⟨T.instant + half_daylight_0 * 3600, T.tz⟩),
     ("dawn", ⟨T.instant - half_daylight_1 * 3600, T.tz⟩),
     ("dusk", ⟨T.instant + half_daylight_1 * 3600, T.tz⟩)]

/-! ## Spec-side reference definitions

Used only to compare the code against the specification's wording. -/

/-- The solar-noon instant exactly as the specification words it
(`n_transit = floor(n) - longitude_deg/360 - eq_of_time_day`, converted
back to an absolute epoch-based timestamp): identical to `dt_transit`
except that `floor` replaces Python's `int()` truncation. -/
noncomputable def spec_dt_transit {TZ : Type} (longitude_deg : ℝ) (dt : PyDateTime TZ) :
    PyDateTime TZ :=
  ⟨-5 + ((⌊n_of dt⌋ : ℝ) - longitude_deg / 360.0 - eq_of_time_day dt) * 86400, dt.tz⟩

/-! ## `SolarElevation` (spec §4.3)

Modelled from the spec: the repository's sources provided under `src/`
contain only `sun_times`; the `SolarElevation` entry point described in
§4.3 of the specification (the NOAA solar-position derivation used by the
direct-print variant files) is not among them.  The definitions below
follow the spec's description of that derivation: century-scale
polynomials for mean longitude, mean anomaly and eccentricity, the
equation of center, apparent longitude with nutation correction,
time-varying (corrected) ecliptic obliquity, declination via `ArcSinDeg`,
the equation of time in minutes, true solar time wrapped into `[0, 1440)`
by modulo, hour angle `minutes/4 - 180`, a zenith angle via `ArcCosDeg`
of the standard spherical-trig expression, and elevation `90 - zenith`. -/

/-- Modelled from the spec: the timestamp fields `SolarElevation` reads —
the fractional-day offset from the epoch (via §4.2), the wall-clock
minutes past local midnight, and the UTC offset in hours. -/
structure SolarTimeFields where
  days_since_epoch : ℝ
  local_minutes : ℝ
  utc_offset_hours : ℝ

/-- Modelled from the spec: Julian centuries since the epoch. -/
noncomputable def julian_century (tf : SolarTimeFields) : ℝ :=
  tf.days_since_epoch / 36525

/-- Modelled from the spec: geometric mean longitude of the sun (degrees,
century-scale polynomial, modulo 360). -/
noncomputable def geom_mean_long_sun (tf : SolarTimeFields) : ℝ :=
  pymod (280.46646 + julian_century tf *
    (36000.76983 + julian_century tf * 0.0003032)) 360

/-- Modelled from the spec: geometric mean anomaly of the sun (degrees,
century-scale polynomial). -/
noncomputable def geom_mean_anom_sun (tf : SolarTimeFields) : ℝ :=
  357.52911 + julian_century tf * (35999.05029 - 0.0001537 * julian_century tf)

/-- Modelled from the spec: orbital eccentricity of the Earth
(century-scale polynomial). -/
noncomputable def eccent_earth_orbit (tf : SolarTimeFields) : ℝ :=
  0.016708634 - julian_century tf * (0.000042037 + 0.0000001267 * julian_century tf)

/-- Modelled from the spec: the equation of center (degrees). -/
noncomputable def sun_eq_of_ctr (tf : SolarTimeFields) : ℝ :=
  sind (geom_mean_anom_sun tf) *
      (1.914602 - julian_century tf * (0.004817 + 0.000014 * julian_century tf))
    + sind (2 * geom_mean_anom_sun tf) * (0.019993 - 0.000101 * julian_century tf)
    + sind (3 * geom_mean_anom_sun tf) * 0.000289

/-- Modelled from the spec: true longitude of the sun (degrees). -/
noncomputable def sun_true_long (tf : SolarTimeFields) : ℝ :=
  geom_mean_long_sun tf + sun_eq_of_ctr tf

/-- Modelled from the spec: apparent longitude with the nutation
correction term (degrees). -/
noncomputable def sun_app_long (tf : SolarTimeFields) : ℝ :=
  sun_true_long tf - 0.00569 - 0.00478 * sind (125.04 - 1934.136 * julian_century tf)

/-- Modelled from the spec: mean obliquity of the ecliptic (degrees,
century-scale polynomial). -/
noncomputable def mean_obliq_ecliptic (tf : SolarTimeFields) : ℝ :=
  23 + (26 + (21.448 - julian_century tf *
    (46.815 + julian_century tf * (0.00059 - julian_century tf * 0.001813))) / 60) / 60

/-- Modelled from the spec: corrected (time-varying) obliquity
(degrees). -/
noncomputable def obliq_corr (tf : SolarTimeFields) : ℝ :=
  mean_obliq_ecliptic tf + 0.00256 * cosd (125.04 - 1934.136 * julian_century tf)

/-- Modelled from the spec: solar declination via `ArcSinDeg` with the
time-varying obliquity (degrees). -/
noncomputable def sun_declin (tf : SolarTimeFields) : ℝ :=
  asind (sind (obliq_corr tf) * sind (sun_app_long tf))

/-- Modelled from the spec: the auxiliary `y` factor of the NOAA
equation-of-time series. -/
noncomputable def var_y (tf : SolarTimeFields) : ℝ :=
  tand (obliq_corr tf / 2) * tand (obliq_corr tf / 2)

/-- Modelled from the spec: the equation of time, in minutes. -/
noncomputable def eq_of_time_min (tf : SolarTimeFields) : ℝ :=
  4 * ((var_y tf * sind (2 * geom_mean_long_sun tf)
    - 2 * eccent_earth_orbit tf * sind (geom_mean_anom_sun tf)
    + 4 * eccent_earth_orbit tf * var_y tf * sind (geom_mean_anom_sun tf)
        * cosd (2 * geom_mean_long_sun tf)
    - 0.5 * var_y tf * var_y tf * sind (4 * geom_mean_long_sun tf)
    - 1.25 * eccent_earth_orbit tf * eccent_earth_orbit tf
        * sind (2 * geom_mean_anom_sun tf)) * (180 / pi))

/-- Modelled from the spec: true solar time in minutes, wrapped into
`[0, 1440)` by modulo. -/
noncomputable def true_solar_time (longitude_deg : ℝ) (tf : SolarTimeFields) : ℝ :=
  pymod (tf.local_minutes + eq_of_time_min tf + 4 * longitude_deg
    - 60 * tf.utc_offset_hours) 1440

/-- Modelled from the spec: hour angle in degrees, `minutes/4 - 180`. -/
noncomputable def solar_hour_angle (longitude_deg : ℝ) (tf : SolarTimeFields) : ℝ :=
  true_solar_time longitude_deg tf / 4 - 180

/-- Modelled from the spec: the solar zenith angle via `ArcCosDeg` of the
standard spherical-trig expression combining latitude, declination and
hour angle (degrees). -/
noncomputable def solar_zenith (latitude_deg longitude_deg : ℝ) (tf : SolarTimeFields) : ℝ :=
  acosd (sind latitude_deg * sind (sun_declin tf)
    + cosd latitude_deg * cosd (sun_declin tf) * cosd (solar_hour_angle longitude_deg tf))

/-- Modelled from the spec: `SolarElevation` returns `90 - zenith`
degrees. -/
noncomputable def SolarElevation (latitude_deg longitude_deg : ℝ)
    (tf : SolarTimeFields) : ℝ :=
  90 - solar_zenith latitude_deg longitude_deg tf

/-! ## Concrete inputs used by witnesses and counterexamples -/

/-- The instant five seconds before `TIME_EPOCH`, i.e. the input whose
leap-second-corrected day count `n` is exactly `0`
(1999-12-31T23:59:55Z? — rather, 2000-01-01T11:59:55 UTC), tagged with a
trivial timezone. -/
noncomputable def t0 : PyDateTime Unit := ⟨-5, ()⟩

/-- An input half a day before `t0`, whose day count is `n = -1/2`. -/
noncomputable def t_neg : PyDateTime Unit := ⟨-43205, ()⟩

/-- A latitude, within `[-90, 90]`, at which the sun's centre culminates
its day (at `t0`) exactly at elevation `-0.83°`: the `acosd` argument for
the sunrise/sunset threshold is then exactly `1`. -/
noncomputable def lat_cex : ℝ := delta_of t0 + 90.83

/-! # Theorems

General facts about the embedded degree-trigonometry and Python
arithmetic, followed by quantitative bounds on the solar intermediates,
and then one theorem (plus witness or counterexample) per claim. -/

/-- Python float `%`: when `0 ≤ a < b`, `a % b = a`. -/
theorem pymod_eq_self {a b : ℝ} (h0 : 0 ≤ a) (h1 : a < b) : pymod a b = a := by
  have hb : 0 < b := lt_of_le_of_lt h0 h1
  have : ⌊a / b⌋ = 0 := by
    rw [Int.floor_eq_zero_iff]
    constructor
    · exact div_nonneg h0 hb.le
    · rw [div_lt_one hb]; exact h1
  simp [pymod, this]

/-- Python float `%`: when `b ≤ a < 2b`, `a % b = a - b`. -/
theorem pymod_eq_sub {a b : ℝ} (hb : 0 < b) (h0 : b ≤ a) (h1 : a < 2 * b) :
    pymod a b = a - b := by
  have : ⌊a / b⌋ = 1 := by
    have h2 : (1 : ℝ) ≤ a / b := (le_div_iff₀ hb).2 (by linarith)
    have h3 : a / b < 2 := by rw [div_lt_iff₀ hb]; linarith
    rw [Int.floor_eq_iff]
    constructor
    · exact_mod_cast h2
    · push_cast; linarith
  rw [pymod, this]
  push_cast
  ring

/-- `sind` is odd. -/
theorem sind_neg (x : ℝ) : sind (-x) = -sind x := by
  simp [sind, neg_mul]

/-- `cosd` is even. -/
theorem cosd_neg (x : ℝ) : cosd (-x) = cosd x := by
  simp [cosd, neg_mul]

/-- `sind 0 = 0`. -/
theorem sind_zero : sind 0 = 0 := by simp [sind]

/-- `cosd 0 = 1`. -/
theorem cosd_zero : cosd 0 = 1 := by simp [cosd]

/-- Degree-based inversion: `sind (asind x) = x` on `[-1, 1]`. -/
theorem sind_asind {x : ℝ} (h0 : -1 ≤ x) (h1 : x ≤ 1) : sind (asind x) = x := by
  have hpi := Real.pi_ne_zero
  have : Real.arcsin x * (180 / pi) * (pi / 180) = Real.arcsin x := by
    field_simp
  rw [sind, asind, this, Real.sin_arcsin h0 h1]

/-- Degree-based inversion: `cosd (asind x) = √(1 - x²)`. -/
theorem cosd_asind (x : ℝ) : cosd (asind x) = Real.sqrt (1 - x ^ 2) := by
  have hpi := Real.pi_ne_zero
  have : Real.arcsin x * (180 / pi) * (pi / 180) = Real.arcsin x := by
    field_simp
  rw [cosd, asind, this, Real.cos_arcsin]

/-- The subtraction formula transported to degree arguments. -/
theorem cosd_sub (a b : ℝ) : cosd (a - b) = cosd a * cosd b + sind a * sind b := by
  have : (a - b) * (pi / 180) = a * (pi / 180) - b * (pi / 180) := by ring
  rw [cosd, this, Real.cos_sub, cosd, cosd, sind, sind]

/-- `cosd (90 + x) = -sind x`. -/
theorem cosd_ninety_add (x : ℝ) : cosd (90 + x) = -sind x := by
  have : (90 + x) * (pi / 180) = pi / 2 + x * (pi / 180) := by ring
  rw [cosd, this, Real.cos_add, Real.cos_pi_div_two, Real.sin_pi_div_two, sind]
  ring

/-- `Real.arccos` is antitone on all of `ℝ`. -/
theorem arccos_anti {x y : ℝ} (h : x ≤ y) : Real.arccos y ≤ Real.arccos x := by
  rw [Real.arccos_eq_pi_div_two_sub_arcsin, Real.arccos_eq_pi_div_two_sub_arcsin]
  have := Real.monotone_arcsin h
  linarith

/-- `acosd` is nonnegative. -/
theorem acosd_nonneg (x : ℝ) : 0 ≤ acosd x := by
  have h1 := Real.arccos_nonneg x
  have h2 : (0 : ℝ) < 180 / pi := by positivity
  exact mul_nonneg h1 h2.le

/-- `acosd 1 = 0` (the sun's centre is exactly at the threshold at
transit). -/
theorem acosd_one : acosd 1 = 0 := by
  rw [acosd, Real.arccos_one, zero_mul]

/-- `acosd` is positive strictly below `1`. -/
theorem acosd_pos {x : ℝ} (h : x < 1) : 0 < acosd x := by
  have h1 := Real.arccos_pos.2 h
  have h2 : (0 : ℝ) < 180 / pi := by positivity
  exact mul_pos h1 h2

/-- `acosd` is antitone. -/
theorem acosd_anti {x y : ℝ} (h : x ≤ y) : acosd y ≤ acosd x := by
  have h2 : (0 : ℝ) ≤ 180 / pi := by positivity
  exact mul_le_mul_of_nonneg_right (arccos_anti h) h2

/-- `sin` squeezed between rational bounds on the argument
(for `0 < lo ≤ x ≤ hi ≤ 1`). -/
theorem sin_between {lo x hi : ℝ} (hlo : 0 < lo) (h1 : lo ≤ x) (h2 : x ≤ hi)
    (hhi : hi ≤ 1) : lo - hi ^ 3 / 4 ≤ Real.sin x ∧ Real.sin x ≤ hi := by
  have hx : 0 < x := lt_of_lt_of_le hlo h1
  constructor
  · have hc := Real.sin_gt_sub_cube hx (le_trans h2 hhi)
    have hcube : x ^ 3 ≤ hi ^ 3 := by
      have := pow_le_pow_left₀ hx.le h2 3
      simpa using this
    linarith
  · exact le_trans (Real.sin_lt hx).le h2

/-- `sin t ≤ t` for nonnegative `t`. -/
theorem sin_le_self {t : ℝ} (h : 0 ≤ t) : Real.sin t ≤ t := by
  rcases eq_or_lt_of_le h with h' | h'
  · simp [← h']
  · exact (Real.sin_lt h').le

/-- `a ≤ arcsin a` on `[0, 1]`. -/
theorem le_arcsin_self {a : ℝ} (h0 : 0 ≤ a) (h1 : a ≤ 1) : a ≤ Real.arcsin a := by
  have hs := Real.sin_arcsin (by linarith) h1
  have h2 : 0 ≤ Real.arcsin a := Real.arcsin_nonneg.2 h0
  have := sin_le_self h2
  linarith

/-- Any sine rewritten around `3π/2`, where it is close to `-1`. -/
theorem sin_eq_neg_cos (t : ℝ) : Real.sin t = -Real.cos (t - 3 * (pi / 2)) := by
  rw [show t - 3 * (pi / 2) = t - pi - pi / 2 by ring, Real.cos_sub,
    Real.cos_pi_div_two, Real.sin_pi_div_two, Real.sin_sub, Real.sin_pi, Real.cos_pi]
  ring

/-! ## Quantitative bounds on the solar intermediates

All bounds below hold for any input whose leap-second-corrected day
count `n` lies in `[-1, 1]` — a two-day window around the epoch,
containing both concrete inputs `t0` and `t_neg` used later. -/

/-- For `|n| ≤ 1` the mean-anomaly modulo is the identity, so `M`
equals the raw affine expression, and `356.54 ≤ M ≤ 358.52`. -/
theorem M_near_epoch {TZ : Type} (dt : PyDateTime TZ) (hn : |n_of dt| ≤ 1) :
    M_of dt = 357.5291 + 0.98560028 * n_of dt ∧
    356.54 ≤ M_of dt ∧ M_of dt ≤ 358.515 := by
  rw [abs_le] at hn
  have hval : (985.600280e-3 : ℝ) = 0.98560028 := by norm_num
  have h0 : 0 ≤ 357.5291 + 985.600280e-3 * n_of dt := by
    have := hn.1
    nlinarith
  have h1 : 357.5291 + 985.600280e-3 * n_of dt < 360 := by
    have := hn.2
    nlinarith
  have he : M_of dt = 357.5291 + 985.600280e-3 * n_of dt := by
    rw [M_of, pymod_eq_self h0 h1]
  refine ⟨by rw [he, hval], ?_, ?_⟩ <;> rw [he] <;> nlinarith [hn.1, hn.2]

/-- The equation of center is at most `1.9351` in magnitude. -/
theorem C_abs_le {TZ : Type} (dt : PyDateTime TZ) : |C_of dt| ≤ 1.9351 := by
  have b1 := Real.neg_one_le_sin (M_of dt * (pi / 180))
  have b2 := Real.sin_le_one (M_of dt * (pi / 180))
  have b3 := Real.neg_one_le_sin (2 * M_of dt * (pi / 180))
  have b4 := Real.sin_le_one (2 * M_of dt * (pi / 180))
  have b5 := Real.neg_one_le_sin (3 * M_of dt * (pi / 180))
  have b6 := Real.sin_le_one (3 * M_of dt * (pi / 180))
  rw [abs_le]
  constructor <;> simp only [C_of, sind] <;> nlinarith

/-- For `|n| ≤ 1` the ecliptic-longitude modulo subtracts exactly one
turn, and `277.54 ≤ lam ≤ 283.39`. -/
theorem lam_near_epoch {TZ : Type} (dt : PyDateTime TZ) (hn : |n_of dt| ≤ 1) :
    lam_of dt = M_of dt + C_of dt - 77.0628 ∧
    277.54 ≤ lam_of dt ∧ lam_of dt ≤ 283.39 := by
  obtain ⟨-, hM0, hM1⟩ := M_near_epoch dt hn
  have hC := C_abs_le dt
  rw [abs_le] at hC
  have h0 : (360 : ℝ) ≤ M_of dt + C_of dt + 180.0 + 102.9372 := by linarith
  have h1 : M_of dt + C_of dt + 180.0 + 102.9372 < 2 * 360 := by linarith
  have he : lam_of dt = M_of dt + C_of dt - 77.0628 := by
    rw [lam_of, pymod_eq_sub (by norm_num) h0 h1]
    ring
  exact ⟨he, by rw [he]; linarith, by rw [he]; linarith⟩

/-- Near the epoch the sun sits close to perihelion: `sind lam ≤ -0.97`. -/
theorem sind_lam_near_epoch {TZ : Type} (dt : PyDateTime TZ) (hn : |n_of dt| ≤ 1) :
    sind (lam_of dt) ≤ -0.97 := by
  obtain ⟨-, hl0, hl1⟩ := lam_near_epoch dt hn
  have hpl := Real.pi_gt_d6
  have hpu := Real.pi_lt_d6
  have hrw : sind (lam_of dt) =
      -Real.cos (lam_of dt * (pi / 180) - 3 * (pi / 2)) := by
    rw [sind, sin_eq_neg_cos]
  set y := lam_of dt * (pi / 180) - 3 * (pi / 2) with hy
  have hyform : y = (lam_of dt - 270) * (pi / 180) := by rw [hy]; ring
  have hy0 : 0 ≤ y := by
    rw [hyform]
    have : (0 : ℝ) ≤ lam_of dt - 270 := by linarith
    positivity
  have hy1 : y ≤ 0.2337 := by
    rw [hyform]
    nlinarith
  have hcos := Real.one_sub_sq_div_two_le_cos (x := y)
  have hsq : y ^ 2 ≤ 0.2337 ^ 2 := by
    rw [pow_two, pow_two]
    exact mul_le_mul hy1 hy1 hy0 (by norm_num)
  rw [hrw]
  nlinarith

/-- The fixed-obliquity sine: `0.39 ≤ sind 23.44 ≤ 0.41`. -/
theorem sind_obliquity_bounds : 0.39 ≤ sind 23.44 ∧ sind 23.44 ≤ 0.41 := by
  have hpl := Real.pi_gt_d6
  have hpu := Real.pi_lt_d6
  have hz0 : (0.409105 : ℝ) ≤ 23.44 * (pi / 180) := by nlinarith
  have hz1 : 23.44 * (pi / 180) ≤ 0.409106 := by nlinarith
  have := sin_between (by norm_num) hz0 hz1 (by norm_num)
  rw [sind]
  constructor <;> nlinarith [this.1, this.2]

/-- Near the epoch the declination sine `sind lam * sind 23.44` lies in
`[-0.41, -0.378]`. -/
theorem declin_sine_bounds {TZ : Type} (dt : PyDateTime TZ) (hn : |n_of dt| ≤ 1) :
    -0.41 ≤ sind (lam_of dt) * sind 23.44 ∧
    sind (lam_of dt) * sind 23.44 ≤ -0.378 := by
  have h1 := sind_lam_near_epoch dt hn
  have h2 := Real.neg_one_le_sin (lam_of dt * (pi / 180))
  have h3 := sind_obliquity_bounds
  simp only [sind] at h1 h3 ⊢
  have hkey1 : (0.97 : ℝ) * 0.39 ≤
      -Real.sin (lam_of dt * (pi / 180)) * Real.sin (23.44 * (pi / 180)) :=
    mul_le_mul (by linarith) h3.1 (by norm_num) (by linarith)
  have hkey2 : -Real.sin (lam_of dt * (pi / 180)) * Real.sin (23.44 * (pi / 180)) ≤
      1 * 0.41 :=
    mul_le_mul (by linarith) h3.2 (by linarith [h3.1]) (by norm_num)
  constructor <;> nlinarith

/-- `sind` applied to the code's declination recovers the declination
sine. -/
theorem sind_delta_of {TZ : Type} (dt : PyDateTime TZ) (hn : |n_of dt| ≤ 1) :
    sind (delta_of dt) = sind (lam_of dt) * sind 23.44 := by
  have h := declin_sine_bounds dt hn
  rw [delta_of, sind_asind (by linarith [h.1]) (by linarith [h.2])]

/-- `cosd` of the code's declination: closed form and bounds
`0.91 ≤ cosd delta ≤ 1`. -/
theorem cosd_delta_of {TZ : Type} (dt : PyDateTime TZ) (hn : |n_of dt| ≤ 1) :
    cosd (delta_of dt) =
      Real.sqrt (1 - (sind (lam_of dt) * sind 23.44) ^ 2) ∧
    0.91 ≤ cosd (delta_of dt) ∧ cosd (delta_of dt) ≤ 1 := by
  have h := declin_sine_bounds dt hn
  have he : cosd (delta_of dt) =
      Real.sqrt (1 - (sind (lam_of dt) * sind 23.44) ^ 2) := by
    rw [delta_of, cosd_asind]
  refine ⟨he, ?_, ?_⟩
  · rw [he]
    have hx2 : (sind (lam_of dt) * sind 23.44) ^ 2 ≤ 0.41 ^ 2 := by
      rw [pow_two, pow_two]
      nlinarith [h.1, h.2]
    have : (0.91 : ℝ) ^ 2 ≤ 1 - (sind (lam_of dt) * sind 23.44) ^ 2 := by
      nlinarith
    nlinarith [Real.sq_sqrt (by nlinarith [hx2] :
        (0 : ℝ) ≤ 1 - (sind (lam_of dt) * sind 23.44) ^ 2),
      Real.sqrt_nonneg (1 - (sind (lam_of dt) * sind 23.44) ^ 2)]
  · rw [he]
    exact Real.sqrt_le_one.mpr
      (by nlinarith [sq_nonneg (sind (lam_of dt) * sind 23.44)])

/-- Near the epoch the declination is a midwinter one:
`-40.2 ≤ delta ≤ -21.6` degrees. -/
theorem delta_bounds {TZ : Type} (dt : PyDateTime TZ) (hn : |n_of dt| ≤ 1) :
    -40.2 ≤ delta_of dt ∧ delta_of dt ≤ -21.6 := by
  have hx := declin_sine_bounds dt hn
  have hpl := Real.pi_gt_d6
  have hpu := Real.pi_lt_d6
  have hpipos : (0 : ℝ) < pi := Real.pi_pos
  set x := sind (lam_of dt) * sind 23.44 with hxdef
  have hup : Real.arcsin x ≤ -0.378 := by
    have h1 : Real.arcsin x ≤ Real.arcsin (-0.378) := Real.monotone_arcsin hx.2
    have h2 : Real.arcsin (-0.378 : ℝ) = -Real.arcsin 0.378 := by
      rw [show ((-0.378 : ℝ)) = -(0.378 : ℝ) by norm_num, Real.arcsin_neg]
    have h3 := le_arcsin_self (a := 0.378) (by norm_num) (by norm_num)
    rw [h2] at h1
    linarith
  have hlo : -0.7 ≤ Real.arcsin x := by
    have hsin07 : (0.41 : ℝ) ≤ Real.sin 0.7 := by
      have := Real.sin_gt_sub_cube (x := 0.7) (by norm_num) (by norm_num)
      nlinarith
    have h1 : -Real.sin 0.7 ≤ x := by linarith [hx.1]
    have h2 : Real.arcsin (-Real.sin 0.7) ≤ Real.arcsin x := Real.monotone_arcsin h1
    have h3 : Real.arcsin (-Real.sin 0.7) = -0.7 := by
      rw [show (-Real.sin 0.7) = Real.sin (-0.7) by rw [Real.sin_neg]]
      exact Real.arcsin_sin (by nlinarith) (by nlinarith)
    linarith
  have hform : delta_of dt = Real.arcsin x * (180 / pi) := by
    rw [delta_of, asind]
  rw [hform]
  have hd0 : (0 : ℝ) < 180 / pi := by positivity
  constructor
  · have : -0.7 * (180 / pi) ≤ Real.arcsin x * (180 / pi) :=
      mul_le_mul_of_nonneg_right hlo hd0.le
    have hpib : 180 / pi ≤ 57.296 := by
      rw [div_le_iff₀ hpipos]
      nlinarith
    nlinarith
  · have h1 : Real.arcsin x * (180 / pi) ≤ -0.378 * (180 / pi) :=
      mul_le_mul_of_nonneg_right hup hd0.le
    have hpib : 57.29 ≤ 180 / pi := by
      rw [le_div_iff₀ hpipos]
      nlinarith
    nlinarith

/-- The sunrise/sunset horizon-depression sine:
`-0.0145 ≤ sind (-0.83) ≤ -0.0144`. -/
theorem sind_sunset_bounds :
    -0.0145 ≤ sind sunset_deg ∧ sind sunset_deg ≤ -0.0144 := by
  have hpl := Real.pi_gt_d6
  have hpu := Real.pi_lt_d6
  have hform : sind sunset_deg = -Real.sin (0.83 * (pi / 180)) := by
    rw [show sunset_deg = -(0.83 : ℝ) by norm_num [sunset_deg], sind_neg, sind]
  have hz0 : (0.014486 : ℝ) ≤ 0.83 * (pi / 180) := by nlinarith
  have hz1 : 0.83 * (pi / 180) ≤ 0.014487 := by nlinarith
  have := sin_between (by norm_num) hz0 hz1 (by norm_num)
  rw [hform]
  constructor <;> nlinarith [this.1, this.2]

/-- The civil-twilight sine: `-0.105 ≤ sind (-6.0) ≤ -0.104`. -/
theorem sind_twilight_bounds :
    -0.105 ≤ sind civil_twilight_deg ∧ sind civil_twilight_deg ≤ -0.104 := by
  have hpl := Real.pi_gt_d6
  have hpu := Real.pi_lt_d6
  have hform : sind civil_twilight_deg = -Real.sin (6 * (pi / 180)) := by
    rw [show civil_twilight_deg = -(6 : ℝ) by norm_num [civil_twilight_deg], sind_neg, sind]
  have hz0 : (0.104719 : ℝ) ≤ 6 * (pi / 180) := by nlinarith
  have hz1 : 6 * (pi / 180) ≤ 0.1047198 := by nlinarith
  have := sin_between (by norm_num) hz0 hz1 (by norm_num)
  rw [hform]
  constructor <;> nlinarith [this.1, this.2]

/-- The concrete input `t0` has day count `n = 0`. -/
theorem n_of_t0 : n_of t0 = 0 := by norm_num [n_of, t0]

/-- The concrete input `t_neg` has day count `n = -1/2`. -/
theorem n_of_t_neg : n_of t_neg = -(1 / 2) := by norm_num [n_of, t_neg]

/-- At latitude `0` the hour-angle argument collapses to
`sind θ / cosd delta`. -/
theorem omega_arg_at_equator {TZ : Type} (dt : PyDateTime TZ) (theta : ℝ) :
    omega_arg 0 dt theta = sind theta / cosd (delta_of dt) := by
  rw [omega_arg, sind_zero, cosd_zero]
  ring_nf

/-- Near the epoch, latitude `0` is a thoroughly regular input: both
hour-angle arguments are within `[-1, 1]` (strictly below `1`), and the
denominator is positive. -/
theorem equator_args_ok {TZ : Type} (dt : PyDateTime TZ) (hn : |n_of dt| ≤ 1) :
    |omega_arg 0 dt sunset_deg| ≤ 1 ∧
    |omega_arg 0 dt civil_twilight_deg| ≤ 1 ∧
    0 < cosd 0 * cosd (delta_of dt) ∧
    omega_arg 0 dt sunset_deg < 1 := by
  obtain ⟨-, hc0, hc1⟩ := cosd_delta_of dt hn
  have hsun := sind_sunset_bounds
  have htwi := sind_twilight_bounds
  have habs : ∀ theta : ℝ, |sind theta| ≤ 0.105 → |omega_arg 0 dt theta| ≤ 1 := by
    intro theta h
    rw [omega_arg_at_equator, abs_div, abs_of_pos (by linarith : (0:ℝ) < cosd (delta_of dt))]
    rw [div_le_one (by linarith)]
    linarith
  have h1 : |omega_arg 0 dt sunset_deg| ≤ 1 := by
    apply habs
    rw [abs_le]
    constructor <;> linarith [hsun.1, hsun.2]
  refine ⟨h1, ?_, ?_, ?_⟩
  · apply habs
    rw [abs_le]
    constructor <;> linarith [htwi.1, htwi.2]
  · rw [cosd_zero, one_mul]
    linarith
  · have : omega_arg 0 dt sunset_deg ≤ 0 := by
      rw [omega_arg_at_equator]
      apply div_nonpos_of_nonpos_of_nonneg <;> linarith [hsun.2]
    linarith

/-- Unfolding `sun_times` on the success path: when neither `acosd`
argument leaves `[-1, 1]`, the returned dictionary is exactly the five
events around `dt_transit`. -/
theorem sun_times_eq_some {TZ : Type} (lat lon : ℝ) (dt : PyDateTime TZ)
    (h0 : |omega_arg lat dt sunset_deg| ≤ 1)
    (h1 : |omega_arg lat dt civil_twilight_deg| ≤ 1) :
    sun_times lat lon dt = some
      [("noon", dt_transit lon dt),
       ("sunrise", ⟨(dt_transit lon dt).instant
          - acosd (omega_arg lat dt sunset_deg) / 15.0 * 3600, dt.tz⟩),
       ("sunset", ⟨(dt_transit lon dt).instant
          + acosd (omega_arg lat dt sunset_deg) / 15.0 * 3600, dt.tz⟩),
       ("dawn", ⟨(dt_transit lon dt).instant
          - acosd (omega_arg lat dt civil_twilight_deg) / 15.0 * 3600, dt.tz⟩),
       ("dusk", ⟨(dt_transit lon dt).instant
          + acosd (omega_arg lat dt civil_twilight_deg) / 15.0 * 3600, dt.tz⟩)] := by
  simp only [sun_times, omega, if_pos h0, if_pos h1, Option.bind, Option.map, dt_transit]

/-- Unfolding `sun_times` on the failure path: as soon as either `acosd`
argument leaves `[-1, 1]`, the whole call fails. -/
theorem sun_times_eq_none {TZ : Type} (lat lon : ℝ) (dt : PyDateTime TZ)
    (h : ¬ |omega_arg lat dt sunset_deg| ≤ 1 ∨
      ¬ |omega_arg lat dt civil_twilight_deg| ≤ 1) :
    sun_times lat lon dt = none := by
  rcases h with h | h
  · simp only [sun_times, omega, if_neg h, Option.bind]
  · by_cases h0 : |omega_arg lat dt sunset_deg| ≤ 1
    · simp only [sun_times, omega, if_pos h0, if_neg h, Option.bind, Option.map]
    · simp only [sun_times, omega, if_neg h0, Option.bind]

/-- `|n| ≤ 1` holds at `t0`. -/
theorem n_of_t0_small : |n_of t0| ≤ 1 := by rw [n_of_t0]; norm_num

/-- `|n| ≤ 1` holds at `t_neg`. -/
theorem n_of_t_neg_small : |n_of t_neg| ≤ 1 := by
  rw [n_of_t_neg, abs_le]
  norm_num

/-- The boundary latitude is an ordinary mid-latitude:
`50.63 ≤ lat_cex ≤ 69.23`. -/
theorem lat_cex_range : 50.63 ≤ lat_cex ∧ lat_cex ≤ 69.23 := by
  have h := delta_bounds t0 n_of_t0_small
  rw [lat_cex]
  constructor <;> linarith [h.1, h.2]

/-- `cosd lat_cex ≥ 0.27`. -/
theorem cosd_lat_cex : 0.27 ≤ cosd lat_cex := by
  have h := lat_cex_range
  have hpl := Real.pi_gt_d6
  have hpu := Real.pi_lt_d6
  rw [cosd]
  set w := lat_cex * (pi / 180) with hw
  have hw0 : 0 ≤ w := by
    rw [hw]
    have : (0 : ℝ) ≤ lat_cex := by linarith [h.1]
    positivity
  have hw1 : w ≤ 1.2083 := by rw [hw]; nlinarith [h.2]
  have hsq : w ^ 2 ≤ 1.2083 ^ 2 := by
    rw [pow_two, pow_two]
    exact mul_le_mul hw1 hw1 hw0 (by norm_num)
  have := Real.one_sub_sq_div_two_le_cos (x := w)
  nlinarith

/-- The hour-angle denominator at `(lat_cex, t0)` is at least `0.245`. -/
theorem denom_cex : 0.245 ≤ cosd lat_cex * cosd (delta_of t0) ∧
    0 < cosd lat_cex * cosd (delta_of t0) := by
  obtain ⟨-, hc0, hc1⟩ := cosd_delta_of t0 n_of_t0_small
  have h := cosd_lat_cex
  constructor <;> nlinarith

/-- At `(lat_cex, t0)` the sunset-threshold `acosd` argument is
exactly `1`: the spherical-trig numerator collapses to the denominator
because `lat_cex - delta = 90.83` makes `cosd (lat - delta)` equal to
`sind (-0.83)`. -/
theorem omega_arg_cex0 : omega_arg lat_cex t0 sunset_deg = 1 := by
  have hD := denom_cex
  have hδ : lat_cex - delta_of t0 = 90.83 := by rw [lat_cex]; ring
  have hkey : cosd (lat_cex - delta_of t0) = sind sunset_deg := by
    rw [hδ, show (90.83 : ℝ) = 90 + 0.83 by norm_num, cosd_ninety_add,
      show sunset_deg = -(0.83 : ℝ) by norm_num [sunset_deg], sind_neg]
  have hsub := cosd_sub lat_cex (delta_of t0)
  have hnum : sind sunset_deg - sind lat_cex * sind (delta_of t0)
      = cosd lat_cex * cosd (delta_of t0) := by
    rw [← hkey, hsub]
    ring
  rw [omega_arg, hnum, div_self (by linarith [hD.2])]

/-- At `(lat_cex, t0)` the civil-twilight `acosd` argument stays within
`[-1, 1]` (indeed within `[0.63, 1]`). -/
theorem omega_arg_cex1 : |omega_arg lat_cex t0 civil_twilight_deg| ≤ 1 := by
  have hD := denom_cex
  have hDne : cosd lat_cex * cosd (delta_of t0) ≠ 0 := by linarith [hD.2]
  have hδ : lat_cex - delta_of t0 = 90.83 := by rw [lat_cex]; ring
  have hkey : cosd (lat_cex - delta_of t0) = sind sunset_deg := by
    rw [hδ, show (90.83 : ℝ) = 90 + 0.83 by norm_num, cosd_ninety_add,
      show sunset_deg = -(0.83 : ℝ) by norm_num [sunset_deg], sind_neg]
  have hsub := cosd_sub lat_cex (delta_of t0)
  have hK : sind lat_cex * sind (delta_of t0)
      = sind sunset_deg - cosd lat_cex * cosd (delta_of t0) := by
    rw [← hkey, hsub]
    ring
  have hsun := sind_sunset_bounds
  have htwi := sind_twilight_bounds
  set D := cosd lat_cex * cosd (delta_of t0) with hDdef
  set e := sind sunset_deg - sind civil_twilight_deg with hedef
  have he0 : 0 ≤ e := by rw [hedef]; linarith [hsun.1, htwi.2]
  have he1 : e ≤ 0.0906 := by rw [hedef]; linarith [hsun.2, htwi.1]
  have hform : omega_arg lat_cex t0 civil_twilight_deg = 1 - e / D := by
    rw [omega_arg, hK]
    field_simp
    ring
  have hq0 : 0 ≤ e / D := div_nonneg he0 (by linarith [hD.2])
  have hq1 : e / D ≤ 0.37 := by
    have h1 : e / D ≤ 0.0906 / 0.245 :=
      div_le_div₀ (by norm_num) he1 (by norm_num) hD.1
    have : (0.0906 : ℝ) / 0.245 ≤ 0.37 := by norm_num
    linarith
  rw [hform, abs_le]
  constructor <;> linarith

/-! ## The claims -/

/-- C1: for every latitude, longitude and timestamp input, `sun_times`
derives its intermediates exactly by the stated formulas: mean anomaly
`M = (357.5291 + 0.98560028 n) mod 360`, equation of center
`C = 1.9148 sind M + 0.0200 sind 2M + 0.0003 sind 3M`, ecliptic
longitude `lam = (M + C + 180 + 102.9372) mod 360`, declination
`delta = asind (sind lam * sind 23.44)`, with `n` the fractional day
count since the epoch. -/
theorem sun_times_intermediates_exact {TZ : Type} (latitude_deg longitude_deg : ℝ)
    (dt : PyDateTime TZ) :
    M_of dt = pymod (357.5291 + 0.98560028 * n_of dt) 360 ∧
    C_of dt = 1.9148 * sind (M_of dt) + 0.0200 * sind (2 * M_of dt)
      + 0.0003 * sind (3 * M_of dt) ∧
    lam_of dt = pymod (M_of dt + C_of dt + 180 + 102.9372) 360 ∧
    delta_of dt = asind (sind (lam_of dt) * sind 23.44) ∧
    n_of dt = (dt.instant + 5) / 86400 := by
  refine ⟨?_, ?_, ?_, rfl, ?_⟩ <;> norm_num [M_of, C_of, lam_of, n_of]

/-- C4: the program's `SolarElevation` (modelled from spec §4.3, its
source file not being among the provided ones) is a pure function of
latitude, longitude and timestamp fields returning `90` minus the solar
zenith angle of the NOAA polynomial derivation — zenith from the
spherical-trig expression over declination and hour angle, declination
from the time-varying obliquity, hour angle from true solar time. -/
theorem solar_elevation_is_ninety_minus_zenith (latitude_deg longitude_deg : ℝ)
    (tf : SolarTimeFields) :
    SolarElevation latitude_deg longitude_deg tf =
      90 - solar_zenith latitude_deg longitude_deg tf ∧
    solar_zenith latitude_deg longitude_deg tf =
      acosd (sind latitude_deg * sind (sun_declin tf)
        + cosd latitude_deg * cosd (sun_declin tf)
          * cosd (solar_hour_angle longitude_deg tf)) ∧
    sun_declin tf = asind (sind (obliq_corr tf) * sind (sun_app_long tf)) ∧
    solar_hour_angle longitude_deg tf = true_solar_time longitude_deg tf / 4 - 180 :=
  ⟨rfl, rfl, rfl, rfl⟩

/-- C6: `sun_times` fails (the `math.acos` domain error propagates to
the caller) precisely when one of the two `acosd` arguments leaves
`[-1, 1]`; on failure no value — partial or clamped — is produced. -/
theorem sun_times_error_condition {TZ : Type} (latitude_deg longitude_deg : ℝ)
    (dt : PyDateTime TZ) :
    sun_times latitude_deg longitude_deg dt = none ↔
      1 < |omega_arg latitude_deg dt sunset_deg| ∨
      1 < |omega_arg latitude_deg dt civil_twilight_deg| := by
  constructor
  · intro h
    by_contra hc
    push_neg at hc
    rw [sun_times_eq_some latitude_deg longitude_deg dt hc.1 hc.2] at h
    exact Option.noConfusion h
  · intro h
    apply sun_times_eq_none
    rcases h with h | h
    · exact Or.inl (not_le.2 h)
    · exact Or.inr (not_le.2 h)

/-- C8: `sun_times` is deterministic — identical inputs give identical
(bit-identical, in the real-number model: equal) results; it is a pure
function of its three arguments. -/
theorem sun_times_deterministic {TZ : Type} (lat1 lon1 lat2 lon2 : ℝ)
    (dt1 dt2 : PyDateTime TZ) (h1 : lat1 = lat2) (h2 : lon1 = lon2)
    (h3 : dt1 = dt2) :
    sun_times lat1 lon1 dt1 = sun_times lat2 lon2 dt2 := by
  rw [h1, h2, h3]

/-- Witness for C8 at the concrete input `(0, 0, t0)`. -/
theorem sun_times_deterministic_witness :
    (0 : ℝ) = 0 ∧ sun_times 0 0 t0 = sun_times 0 0 t0 :=
  ⟨rfl, sun_times_deterministic 0 0 0 0 t0 t0 rfl rfl rfl⟩

/-- C9: evaluating the embedded DST rule.  The two March dates of the
claim behave as stated (2021-03-14 active, 2021-03-13 inactive), but on
2021-11-10 — three days after the first Sunday in November
(2021-11-07) — the rule still reports DST active, although the claim
(and the code's own docstring, lines 94-98) places the end of DST at
the start of November's first Sunday. -/
theorem dst_rule_evaluation :
    is_dst none ⟨2021, 3, 14⟩ = true ∧
    is_dst none ⟨2021, 3, 13⟩ = false ∧
    isoweekday ⟨2021, 11, 7⟩ = 7 ∧
    is_dst none ⟨2021, 11, 10⟩ = true := by
  refine ⟨by decide, by decide, by decide, by decide⟩

/-- C10: a constructor name that misses the six-zone table but parses
as a float yields that fixed offset with the DST override forced to
`False` (so DST never applies on any date); a name that is neither
yields UTC, also never DST; and the date-based rule (stored override
`None`) is only ever reachable for table names. -/
theorem tz_name_fallback (name : String) (ovr : Option Bool) (pf : Option ℚ)
    (d : PyDate) :
    (∀ x : ℚ, all_tz.lookup name = none → pf = some x →
      us_tz_init name ovr pf = ⟨x, name, name, some false⟩) ∧
    (all_tz.lookup name = none → pf = none →
      us_tz_init name ovr pf = ⟨0, "UTC", "UTC", some false⟩) ∧
    (all_tz.lookup name = none → tz_dst (us_tz_init name ovr pf) d = 0) ∧
    ((us_tz_init name ovr pf).dst_override = none → all_tz.lookup name ≠ none) := by
  rcases h : all_tz.lookup name with - | ⟨off, sn, dn⟩
  · rcases pf with - | x
    · refine ⟨?_, ?_, ?_, ?_⟩
      · intro x _ hx
        exact Option.noConfusion hx
      · intro _ _
        simp [us_tz_init, h]
      · intro _
        simp [us_tz_init, h, tz_dst, is_dst]
      · intro hov
        simp [us_tz_init, h] at hov
    · refine ⟨?_, ?_, ?_, ?_⟩
      · intro y _ hy
        obtain rfl : x = y := by injection hy
        simp [us_tz_init, h]
      · intro _ hx
        exact Option.noConfusion hx
      · intro _
        simp [us_tz_init, h, tz_dst, is_dst]
      · intro hov
        simp [us_tz_init, h] at hov
  · refine ⟨?_, ?_, ?_, ?_⟩
    · intro x hn
      exact absurd hn (Option.noConfusion ·)
    · intro hn
      exact absurd hn (Option.noConfusion ·)
    · intro hn
      exact absurd hn (Option.noConfusion ·)
    · intro _
      exact (Option.noConfusion ·)

/-- Witness for C10 at the concrete name `"5.5"` (absent from the
table, parsed by `float` as `5.5` hours). -/
theorem tz_name_fallback_witness :
    all_tz.lookup "5.5" = none ∧
    us_tz_init "5.5" none (some (11 / 2)) = ⟨11 / 2, "5.5", "5.5", some false⟩ ∧
    tz_dst (us_tz_init "5.5" none (some (11 / 2))) ⟨2021, 7, 1⟩ = 0 := by
  have hl : all_tz.lookup "5.5" = none := by decide
  exact ⟨hl,
    (tz_name_fallback "5.5" none (some (11 / 2)) ⟨2021, 7, 1⟩).1 (11 / 2) hl rfl,
    (tz_name_fallback "5.5" none (some (11 / 2)) ⟨2021, 7, 1⟩).2.2.1 hl⟩

/-- C3: whenever no domain error occurs, the returned mapping is
exactly the five events noon = transit, sunrise/sunset = transit ∓
`acosd ((sind (-0.83) - sind lat * sind delta) / (cosd lat * cosd
delta)) / 15` hours, dawn/dusk = transit ∓ the same hour angle at
`-6.0` degrees. -/
theorem sun_times_five_events {TZ : Type} (latitude_deg longitude_deg : ℝ)
    (dt : PyDateTime TZ) (r : List (String × PyDateTime TZ))
    (hr : sun_times latitude_deg longitude_deg dt = some r) :
    r = [("noon", dt_transit longitude_deg dt),
      ("sunrise", ⟨(dt_transit longitude_deg dt).instant -
        acosd ((sind (-0.83) - sind latitude_deg * sind (delta_of dt))
          / (cosd latitude_deg * cosd (delta_of dt))) / 15 * 3600, dt.tz⟩),
      ("sunset", ⟨(dt_transit longitude_deg dt).instant +
        acosd ((sind (-0.83) - sind latitude_deg * sind (delta_of dt))
          / (cosd latitude_deg * cosd (delta_of dt))) / 15 * 3600, dt.tz⟩),
      ("dawn", ⟨(dt_transit longitude_deg dt).instant -
        acosd ((sind (-6.0) - sind latitude_deg * sind (delta_of dt))
          / (cosd latitude_deg * cosd (delta_of dt))) / 15 * 3600, dt.tz⟩),
      ("dusk", ⟨(dt_transit longitude_deg dt).instant +
        acosd ((sind (-6.0) - sind latitude_deg * sind (delta_of dt))
          / (cosd latitude_deg * cosd (delta_of dt))) / 15 * 3600, dt.tz⟩)] := by
  have h0 : |omega_arg latitude_deg dt sunset_deg| ≤ 1 := by
    by_contra h
    rw [sun_times_eq_none latitude_deg longitude_deg dt (Or.inl h)] at hr
    exact Option.noConfusion hr
  have h1 : |omega_arg latitude_deg dt civil_twilight_deg| ≤ 1 := by
    by_contra h
    rw [sun_times_eq_none latitude_deg longitude_deg dt (Or.inr h)] at hr
    exact Option.noConfusion hr
  rw [sun_times_eq_some latitude_deg longitude_deg dt h0 h1] at hr
  rw [← Option.some.inj hr]
  norm_num [omega_arg, sunset_deg, civil_twilight_deg]

/-- Evaluation of `sun_times` at the concrete regular input
`(0, 0, t0)`: the success list, spelled with the claim-style hour-angle
formulas. -/
theorem sun_times_at_origin : sun_times 0 0 t0 = some
    [("noon", dt_transit 0 t0),
     ("sunrise", ⟨(dt_transit 0 t0).instant -
       acosd ((sind (-0.83) - sind 0 * sind (delta_of t0))
         / (cosd 0 * cosd (delta_of t0))) / 15 * 3600, t0.tz⟩),
     ("sunset", ⟨(dt_transit 0 t0).instant +
       acosd ((sind (-0.83) - sind 0 * sind (delta_of t0))
         / (cosd 0 * cosd (delta_of t0))) / 15 * 3600, t0.tz⟩),
     ("dawn", ⟨(dt_transit 0 t0).instant -
       acosd ((sind (-6.0) - sind 0 * sind (delta_of t0))
         / (cosd 0 * cosd (delta_of t0))) / 15 * 3600, t0.tz⟩),
     ("dusk", ⟨(dt_transit 0 t0).instant +
       acosd ((sind (-6.0) - sind 0 * sind (delta_of t0))
         / (cosd 0 * cosd (delta_of t0))) / 15 * 3600, t0.tz⟩)] := by
  have h := equator_args_ok t0 n_of_t0_small
  rw [sun_times_eq_some 0 0 t0 h.1 h.2.1]
  norm_num [omega_arg, sunset_deg, civil_twilight_deg]

/-- Witness for C3 at `(0, 0, t0)`: the call succeeds and returns the
five stated events. -/
theorem sun_times_five_events_witness :
    sun_times 0 0 t0 = some
      [("noon", dt_transit 0 t0),
       ("sunrise", ⟨(dt_transit 0 t0).instant -
         acosd ((sind (-0.83) - sind 0 * sind (delta_of t0))
           / (cosd 0 * cosd (delta_of t0))) / 15 * 3600, t0.tz⟩),
       ("sunset", ⟨(dt_transit 0 t0).instant +
         acosd ((sind (-0.83) - sind 0 * sind (delta_of t0))
           / (cosd 0 * cosd (delta_of t0))) / 15 * 3600, t0.tz⟩),
       ("dawn", ⟨(dt_transit 0 t0).instant -
         acosd ((sind (-6.0) - sind 0 * sind (delta_of t0))
           / (cosd 0 * cosd (delta_of t0))) / 15 * 3600, t0.tz⟩),
       ("dusk", ⟨(dt_transit 0 t0).instant +
         acosd ((sind (-6.0) - sind 0 * sind (delta_of t0))
           / (cosd 0 * cosd (delta_of t0))) / 15 * 3600, t0.tz⟩)] ∧
    [("noon", dt_transit 0 t0),
       ("sunrise", ⟨(dt_transit 0 t0).instant -
         acosd ((sind (-0.83) - sind 0 * sind (delta_of t0))
           / (cosd 0 * cosd (delta_of t0))) / 15 * 3600, t0.tz⟩),
       ("sunset", ⟨(dt_transit 0 t0).instant +
         acosd ((sind (-0.83) - sind 0 * sind (delta_of t0))
           / (cosd 0 * cosd (delta_of t0))) / 15 * 3600, t0.tz⟩),
       ("dawn", ⟨(dt_transit 0 t0).instant -
         acosd ((sind (-6.0) - sind 0 * sind (delta_of t0))
           / (cosd 0 * cosd (delta_of t0))) / 15 * 3600, t0.tz⟩),
       ("dusk", ⟨(dt_transit 0 t0).instant +
         acosd ((sind (-6.0) - sind 0 * sind (delta_of t0))
           / (cosd 0 * cosd (delta_of t0))) / 15 * 3600, t0.tz⟩)] =
    [("noon", dt_transit 0 t0),
       ("sunrise", ⟨(dt_transit 0 t0).instant -
         acosd ((sind (-0.83) - sind 0 * sind (delta_of t0))
           / (cosd 0 * cosd (delta_of t0))) / 15 * 3600, t0.tz⟩),
       ("sunset", ⟨(dt_transit 0 t0).instant +
         acosd ((sind (-0.83) - sind 0 * sind (delta_of t0))
           / (cosd 0 * cosd (delta_of t0))) / 15 * 3600, t0.tz⟩),
       ("dawn", ⟨(dt_transit 0 t0).instant -
         acosd ((sind (-6.0) - sind 0 * sind (delta_of t0))
           / (cosd 0 * cosd (delta_of t0))) / 15 * 3600, t0.tz⟩),
       ("dusk", ⟨(dt_transit 0 t0).instant +
         acosd ((sind (-6.0) - sind 0 * sind (delta_of t0))
           / (cosd 0 * cosd (delta_of t0))) / 15 * 3600, t0.tz⟩)] :=
  ⟨sun_times_at_origin, sun_times_five_events 0 0 t0 _ sun_times_at_origin⟩

/-- C7: every successful result's key list is exactly
`noon, sunrise, sunset, dawn, dusk` and every returned timestamp
carries the timezone tag of the input. -/
theorem sun_times_keys_and_tz {TZ : Type} (latitude_deg longitude_deg : ℝ)
    (dt : PyDateTime TZ) (r : List (String × PyDateTime TZ))
    (hr : sun_times latitude_deg longitude_deg dt = some r) :
    r.map Prod.fst = ["noon", "sunrise", "sunset", "dawn", "dusk"] ∧
    ∀ p ∈ r, (p.2).tz = dt.tz := by
  have h0 : |omega_arg latitude_deg dt sunset_deg| ≤ 1 := by
    by_contra h
    rw [sun_times_eq_none latitude_deg longitude_deg dt (Or.inl h)] at hr
    exact Option.noConfusion hr
  have h1 : |omega_arg latitude_deg dt civil_twilight_deg| ≤ 1 := by
    by_contra h
    rw [sun_times_eq_none latitude_deg longitude_deg dt (Or.inr h)] at hr
    exact Option.noConfusion hr
  rw [sun_times_eq_some latitude_deg longitude_deg dt h0 h1] at hr
  rw [← Option.some.inj hr]
  refine ⟨rfl, ?_⟩
  intro p hp
  simp only [List.mem_cons, List.not_mem_nil, or_false] at hp
  rcases hp with rfl | rfl | rfl | rfl | rfl <;> rfl

/-- Witness for C7 at `(0, 0, t0)`. -/
theorem sun_times_keys_and_tz_witness :
    sun_times 0 0 t0 = some
      [("noon", dt_transit 0 t0),
       ("sunrise", ⟨(dt_transit 0 t0).instant -
         acosd ((sind (-0.83) - sind 0 * sind (delta_of t0))
           / (cosd 0 * cosd (delta_of t0))) / 15 * 3600, t0.tz⟩),
       ("sunset", ⟨(dt_transit 0 t0).instant +
         acosd ((sind (-0.83) - sind 0 * sind (delta_of t0))
           / (cosd 0 * cosd (delta_of t0))) / 15 * 3600, t0.tz⟩),
       ("dawn", ⟨(dt_transit 0 t0).instant -
         acosd ((sind (-6.0) - sind 0 * sind (delta_of t0))
           / (cosd 0 * cosd (delta_of t0))) / 15 * 3600, t0.tz⟩),
       ("dusk", ⟨(dt_transit 0 t0).instant +
         acosd ((sind (-6.0) - sind 0 * sind (delta_of t0))
           / (cosd 0 * cosd (delta_of t0))) / 15 * 3600, t0.tz⟩)] ∧
    ([("noon", dt_transit 0 t0),
       ("sunrise", ⟨(dt_transit 0 t0).instant -
         acosd ((sind (-0.83) - sind 0 * sind (delta_of t0))
           / (cosd 0 * cosd (delta_of t0))) / 15 * 3600, t0.tz⟩),
       ("sunset", ⟨(dt_transit 0 t0).instant +
         acosd ((sind (-0.83) - sind 0 * sind (delta_of t0))
           / (cosd 0 * cosd (delta_of t0))) / 15 * 3600, t0.tz⟩),
       ("dawn", ⟨(dt_transit 0 t0).instant -
         acosd ((sind (-6.0) - sind 0 * sind (delta_of t0))
           / (cosd 0 * cosd (delta_of t0))) / 15 * 3600, t0.tz⟩),
       ("dusk", ⟨(dt_transit 0 t0).instant +
         acosd ((sind (-6.0) - sind 0 * sind (delta_of t0))
           / (cosd 0 * cosd (delta_of t0))) / 15 * 3600, t0.tz⟩)].map Prod.fst
        = ["noon", "sunrise", "sunset", "dawn", "dusk"] ∧
     ∀ p ∈ [("noon", dt_transit 0 t0),
       ("sunrise", ⟨(dt_transit 0 t0).instant -
         acosd ((sind (-0.83) - sind 0 * sind (delta_of t0))
           / (cosd 0 * cosd (delta_of t0))) / 15 * 3600, t0.tz⟩),
       ("sunset", ⟨(dt_transit 0 t0).instant +
         acosd ((sind (-0.83) - sind 0 * sind (delta_of t0))
           / (cosd 0 * cosd (delta_of t0))) / 15 * 3600, t0.tz⟩),
       ("dawn", ⟨(dt_transit 0 t0).instant -
         acosd ((sind (-6.0) - sind 0 * sind (delta_of t0))
           / (cosd 0 * cosd (delta_of t0))) / 15 * 3600, t0.tz⟩),
       ("dusk", ⟨(dt_transit 0 t0).instant +
         acosd ((sind (-6.0) - sind 0 * sind (delta_of t0))
           / (cosd 0 * cosd (delta_of t0))) / 15 * 3600, t0.tz⟩)],
       (p.2).tz = t0.tz) :=
  ⟨sun_times_at_origin, sun_times_keys_and_tz 0 0 t0 _ sun_times_at_origin⟩

/-- C2 (amended): the day count is
`n = (timestamp - epoch + 5 s) / 86400`, and the returned noon is the
epoch-based instant of `int(n) - longitude/360 - eq_of_time_day` days
in the input's timezone, where `int` is Python's truncation toward
zero; truncation agrees with `floor` for all `n ≥ 0` (timestamps at or
after the epoch), but not for fractional negative `n`. -/
theorem sun_times_noon_truncation {TZ : Type} (latitude_deg longitude_deg : ℝ)
    (dt : PyDateTime TZ) (r : List (String × PyDateTime TZ))
    (hr : sun_times latitude_deg longitude_deg dt = some r) :
    n_of dt = (dt.instant + 5) / 86400 ∧
    List.lookup "noon" r = some ⟨-5 +
      ((pyint (n_of dt) : ℝ) - longitude_deg / 360 - eq_of_time_day dt) * 86400,
      dt.tz⟩ ∧
    (0 ≤ n_of dt → (pyint (n_of dt) : ℝ) = ((⌊n_of dt⌋ : ℤ) : ℝ)) := by
  have h0 : |omega_arg latitude_deg dt sunset_deg| ≤ 1 := by
    by_contra h
    rw [sun_times_eq_none latitude_deg longitude_deg dt (Or.inl h)] at hr
    exact Option.noConfusion hr
  have h1 : |omega_arg latitude_deg dt civil_twilight_deg| ≤ 1 := by
    by_contra h
    rw [sun_times_eq_none latitude_deg longitude_deg dt (Or.inr h)] at hr
    exact Option.noConfusion hr
  rw [sun_times_eq_some latitude_deg longitude_deg dt h0 h1] at hr
  refine ⟨by norm_num [n_of], ?_, ?_⟩
  · rw [← Option.some.inj hr]
    simp only [List.lookup]
    norm_num [dt_transit, n_transit]
  · intro h
    simp [pyint, h]

/-- Witness for C2 (amended) at `(0, 0, t0)`, where `n = 0 ≥ 0`. -/
theorem sun_times_noon_truncation_witness :
    sun_times 0 0 t0 = some
      [("noon", dt_transit 0 t0),
       ("sunrise", ⟨(dt_transit 0 t0).instant -
         acosd ((sind (-0.83) - sind 0 * sind (delta_of t0))
           / (cosd 0 * cosd (delta_of t0))) / 15 * 3600, t0.tz⟩),
       ("sunset", ⟨(dt_transit 0 t0).instant +
         acosd ((sind (-0.83) - sind 0 * sind (delta_of t0))
           / (cosd 0 * cosd (delta_of t0))) / 15 * 3600, t0.tz⟩),
       ("dawn", ⟨(dt_transit 0 t0).instant -
         acosd ((sind (-6.0) - sind 0 * sind (delta_of t0))
           / (cosd 0 * cosd (delta_of t0))) / 15 * 3600, t0.tz⟩),
       ("dusk", ⟨(dt_transit 0 t0).instant +
         acosd ((sind (-6.0) - sind 0 * sind (delta_of t0))
           / (cosd 0 * cosd (delta_of t0))) / 15 * 3600, t0.tz⟩)] ∧
    (n_of t0 = (t0.instant + 5) / 86400 ∧
     List.lookup "noon"
       [("noon", dt_transit 0 t0),
        ("sunrise", ⟨(dt_transit 0 t0).instant -
          acosd ((sind (-0.83) - sind 0 * sind (delta_of t0))
            / (cosd 0 * cosd (delta_of t0))) / 15 * 3600, t0.tz⟩),
        ("sunset", ⟨(dt_transit 0 t0).instant +
          acosd ((sind (-0.83) - sind 0 * sind (delta_of t0))
            / (cosd 0 * cosd (delta_of t0))) / 15 * 3600, t0.tz⟩),
        ("dawn", ⟨(dt_transit 0 t0).instant -
          acosd ((sind (-6.0) - sind 0 * sind (delta_of t0))
            / (cosd 0 * cosd (delta_of t0))) / 15 * 3600, t0.tz⟩),
        ("dusk", ⟨(dt_transit 0 t0).instant +
          acosd ((sind (-6.0) - sind 0 * sind (delta_of t0))
            / (cosd 0 * cosd (delta_of t0))) / 15 * 3600, t0.tz⟩)] =
       some ⟨-5 + ((pyint (n_of t0) : ℝ) - 0 / 360 - eq_of_time_day t0) * 86400,
         t0.tz⟩ ∧
     (0 ≤ n_of t0 → (pyint (n_of t0) : ℝ) = ((⌊n_of t0⌋ : ℤ) : ℝ))) :=
  ⟨sun_times_at_origin, sun_times_noon_truncation 0 0 t0 _ sun_times_at_origin⟩

/-- C2 counterexample: at `t_neg` (half a day before the epoch,
`n = -1/2`) the code's noon uses `int(n) = 0` while the claim's
`floor(n) = -1`; the returned noon instant exceeds the claim's by
exactly one day, so the claim's floor-based description is false for
pre-epoch timestamps. -/
theorem sun_times_noon_floor_cex :
    Option.bind (sun_times 0 0 t_neg) (List.lookup "noon")
      = some (dt_transit 0 t_neg) ∧
    (dt_transit 0 t_neg).instant = (spec_dt_transit 0 t_neg).instant + 86400 ∧
    Option.bind (sun_times 0 0 t_neg) (List.lookup "noon")
      ≠ some (spec_dt_transit 0 t_neg) := by
  have h := equator_args_ok t_neg n_of_t_neg_small
  have hs := sun_times_eq_some 0 0 t_neg h.1 h.2.1
  have hpy : pyint (n_of t_neg) = 0 := by
    rw [n_of_t_neg, pyint, if_neg (by norm_num)]
    norm_num
  have hfl : ⌊n_of t_neg⌋ = -1 := by
    rw [n_of_t_neg]
    norm_num
  have hlook : Option.bind (sun_times 0 0 t_neg) (List.lookup "noon")
      = some (dt_transit 0 t_neg) := by
    rw [hs]
    simp [List.lookup]
  have hinst : (dt_transit 0 t_neg).instant
      = (spec_dt_transit 0 t_neg).instant + 86400 := by
    simp only [dt_transit, spec_dt_transit, n_transit, hpy, hfl]
    push_cast
    ring
  refine ⟨hlook, hinst, ?_⟩
  intro hc
  rw [hlook] at hc
  have := congrArg PyDateTime.instant (Option.some.inj hc)
  rw [hinst] at this
  linarith

/-- C5 (amended): whenever neither hour-angle argument leaves `[-1, 1]`
and the spherical denominator `cosd lat * cosd delta` is positive, the
five returned events satisfy `dawn ≤ sunrise ≤ noon ≤ sunset ≤ dusk`;
the inequalities around noon are strict exactly on inputs where the
`-0.83°` argument is strictly below `1` — at the boundary value `1` the
call still succeeds but sunrise = noon = sunset. -/
theorem sun_times_twilight_ordering {TZ : Type} (latitude_deg longitude_deg : ℝ)
    (dt : PyDateTime TZ)
    (h0 : |omega_arg latitude_deg dt sunset_deg| ≤ 1)
    (h1 : |omega_arg latitude_deg dt civil_twilight_deg| ≤ 1)
    (hD : 0 < cosd latitude_deg * cosd (delta_of dt)) :
    (sun_times latitude_deg longitude_deg dt).isSome = true ∧
    (dt_transit longitude_deg dt).instant
        - acosd (omega_arg latitude_deg dt civil_twilight_deg) / 15 * 3600
      ≤ (dt_transit longitude_deg dt).instant
        - acosd (omega_arg latitude_deg dt sunset_deg) / 15 * 3600 ∧
    (dt_transit longitude_deg dt).instant
        - acosd (omega_arg latitude_deg dt sunset_deg) / 15 * 3600
      ≤ (dt_transit longitude_deg dt).instant ∧
    (dt_transit longitude_deg dt).instant
      ≤ (dt_transit longitude_deg dt).instant
        + acosd (omega_arg latitude_deg dt sunset_deg) / 15 * 3600 ∧
    (dt_transit longitude_deg dt).instant
        + acosd (omega_arg latitude_deg dt sunset_deg) / 15 * 3600
      ≤ (dt_transit longitude_deg dt).instant
        + acosd (omega_arg latitude_deg dt civil_twilight_deg) / 15 * 3600 ∧
    (omega_arg latitude_deg dt sunset_deg < 1 →
      (dt_transit longitude_deg dt).instant
          - acosd (omega_arg latitude_deg dt sunset_deg) / 15 * 3600
        < (dt_transit longitude_deg dt).instant ∧
      (dt_transit longitude_deg dt).instant
        < (dt_transit longitude_deg dt).instant
          + acosd (omega_arg latitude_deg dt sunset_deg) / 15 * 3600) := by
  have harg : omega_arg latitude_deg dt civil_twilight_deg
      ≤ omega_arg latitude_deg dt sunset_deg := by
    rw [omega_arg, omega_arg]
    have hs := sind_sunset_bounds
    have ht := sind_twilight_bounds
    exact div_le_div_of_nonneg_right (by linarith [hs.1, ht.2]) hD.le
  have hanti : acosd (omega_arg latitude_deg dt sunset_deg)
      ≤ acosd (omega_arg latitude_deg dt civil_twilight_deg) := acosd_anti harg
  have hnn : 0 ≤ acosd (omega_arg latitude_deg dt sunset_deg) := acosd_nonneg _
  refine ⟨?_, by linarith, by linarith, by linarith, by linarith, ?_⟩
  · rw [sun_times_eq_some latitude_deg longitude_deg dt h0 h1]
    rfl
  · intro hlt
    have := acosd_pos hlt
    constructor <;> linarith

/-- Witness for C5 (amended) at `(0, 0, t0)`: a regular mid-ocean
equatorial input where all hypotheses hold and the strict-side
condition is also met. -/
theorem sun_times_twilight_ordering_witness :
    (|omega_arg 0 t0 sunset_deg| ≤ 1 ∧
     |omega_arg 0 t0 civil_twilight_deg| ≤ 1 ∧
     0 < cosd 0 * cosd (delta_of t0) ∧
     omega_arg 0 t0 sunset_deg < 1) ∧
    ((sun_times 0 0 t0).isSome = true ∧
     (dt_transit 0 t0).instant
         - acosd (omega_arg 0 t0 civil_twilight_deg) / 15 * 3600
       ≤ (dt_transit 0 t0).instant
         - acosd (omega_arg 0 t0 sunset_deg) / 15 * 3600 ∧
     (dt_transit 0 t0).instant - acosd (omega_arg 0 t0 sunset_deg) / 15 * 3600
       ≤ (dt_transit 0 t0).instant ∧
     (dt_transit 0 t0).instant
       ≤ (dt_transit 0 t0).instant + acosd (omega_arg 0 t0 sunset_deg) / 15 * 3600 ∧
     (dt_transit 0 t0).instant + acosd (omega_arg 0 t0 sunset_deg) / 15 * 3600
       ≤ (dt_transit 0 t0).instant
         + acosd (omega_arg 0 t0 civil_twilight_deg) / 15 * 3600 ∧
     (omega_arg 0 t0 sunset_deg < 1 →
       (dt_transit 0 t0).instant - acosd (omega_arg 0 t0 sunset_deg) / 15 * 3600
         < (dt_transit 0 t0).instant ∧
       (dt_transit 0 t0).instant
         < (dt_transit 0 t0).instant
           + acosd (omega_arg 0 t0 sunset_deg) / 15 * 3600)) :=
  have h := equator_args_ok t0 n_of_t0_small
  ⟨⟨h.1, h.2.1, h.2.2.1, h.2.2.2⟩,
    sun_times_twilight_ordering 0 0 t0 h.1 h.2.1 h.2.2.1⟩

/-- C5 counterexample: at the valid latitude `lat_cex` (about `68°`)
and input `t0`, no domain error occurs — both `acosd` arguments lie in
`[-1, 1]` and the denominator is positive — yet the returned sunset
(and sunrise) coincide with noon, refuting the claimed strict chain
`sunrise < noon < sunset`. -/
theorem sun_times_twilight_ordering_cex :
    (-90 ≤ lat_cex ∧ lat_cex ≤ 90) ∧
    (|omega_arg lat_cex t0 sunset_deg| ≤ 1 ∧
     |omega_arg lat_cex t0 civil_twilight_deg| ≤ 1 ∧
     0 < cosd lat_cex * cosd (delta_of t0)) ∧
    Option.bind (sun_times lat_cex 0 t0) (List.lookup "sunset")
      = Option.bind (sun_times lat_cex 0 t0) (List.lookup "noon") ∧
    Option.bind (sun_times lat_cex 0 t0) (List.lookup "sunrise")
      = Option.bind (sun_times lat_cex 0 t0) (List.lookup "noon") ∧
    Option.bind (sun_times lat_cex 0 t0) (List.lookup "noon") ≠ none := by
  have hrange := lat_cex_range
  have h0 : |omega_arg lat_cex t0 sunset_deg| ≤ 1 := by
    rw [omega_arg_cex0]
    norm_num
  have h1 := omega_arg_cex1
  have hD := denom_cex.2
  have hs := sun_times_eq_some lat_cex 0 t0 h0 h1
  have hor : ∀ k : String,
      Option.bind (sun_times lat_cex 0 t0) (List.lookup k)
        = List.lookup k
          [("noon", dt_transit 0 t0),
           ("sunrise", ⟨(dt_transit 0 t0).instant
              - acosd (omega_arg lat_cex t0 sunset_deg) / 15.0 * 3600, t0.tz⟩),
           ("sunset", ⟨(dt_transit 0 t0).instant
              + acosd (omega_arg lat_cex t0 sunset_deg) / 15.0 * 3600, t0.tz⟩),
           ("dawn", ⟨(dt_transit 0 t0).instant
              - acosd (omega_arg lat_cex t0 civil_twilight_deg) / 15.0 * 3600, t0.tz⟩),
           ("dusk", ⟨(dt_transit 0 t0).instant
              + acosd (omega_arg lat_cex t0 civil_twilight_deg) / 15.0 * 3600, t0.tz⟩)] := by
    intro k
    rw [hs]
    rfl
  have hzero : acosd (omega_arg lat_cex t0 sunset_deg) = 0 := by
    rw [omega_arg_cex0, acosd_one]
  refine ⟨⟨by linarith [hrange.1], by linarith [hrange.2]⟩, ⟨h0, h1, hD⟩, ?_, ?_, ?_⟩
  · rw [hor "sunset", hor "noon"]
    simp [List.lookup, hzero]
  · rw [hor "sunrise", hor "noon"]
    simp [List.lookup, hzero]
  · rw [hor "noon"]
    simp [List.lookup]
